import Mathlib

/-!
Verification of the real-time whiteboard server (the socket.io server in
the repository backend: canvas state cache, auth middleware, room event
handlers). Each server construct is translated into an executable Lean
definition; the theorems at the end of the file settle the specification
claims against these definitions.
-/

namespace WB

/-- JS primitive values occurring in event payloads. Nested structures that
the server never inspects (point objects, data URLs) are carried as opaque
strings or flattened keys; the server only reads top-level keys such as
roomId, type, img, text. -/
inductive Val where
  | vstr : String → Val
  | vnum : Int → Val
  | vbool : Bool → Val
  deriving DecidableEq, Repr

/-- JS truthiness of a value (used by the common pattern of checking a
variable before proceeding in a handler). -/
def Val.truthy : Val → Bool
  | .vstr s => !(s == "")
  | .vnum n => !(n == 0)
  | .vbool b => b

/-- A JS object: an association list of key-value pairs in property
insertion order. A runtime JS object has unique keys; the definitions
below follow JS assignment semantics so duplicate keys, if ever present,
behave as repeated assignments. -/
abbrev Obj := List (String × Val)

/-- Property read obj[k]: the value at key k, if present (first occurrence;
for a genuine JS object the key is unique). -/
def Obj.get : Obj → String → Option Val
  | [], _ => none
  | (k, v) :: rest, key => if k = key then some v else Obj.get rest key

/-- Property assignment obj[k] = v: overwrite the existing key in place, or
append a fresh property at the end, exactly as JS object literals build up. -/
def Obj.set : Obj → String → Val → Obj
  | [], key, v => [(key, v)]
  | (k, w) :: rest, key, v =>
    if k = key then (k, v) :: rest else (k, w) :: Obj.set rest key v

/-- The object literal written in every caching handler as a type tag
followed by a payload spread: properties are assigned left to right, so a
payload property named type overwrites the tag. -/
def mkEntry (tag : String) (p : Obj) : Obj :=
  p.foldl (fun acc kv => acc.set kv.1 kv.2) [("type", Val.vstr tag)]

/-- mongoose.Types.ObjectId.isValid on a string: a 12-character string or a
24-character hexadecimal string. -/
def isValidObjectId (s : String) : Bool :=
  s.length == 12 || (s.length == 24 && s.data.all (fun c =>
    c.isDigit || (Char.ofNat 97 ≤ c && c ≤ Char.ofNat 102)
      || (Char.ofNat 65 ≤ c && c ≤ Char.ofNat 70)))

/-! ## Canvas state cache

canvasStateCache is a Map from roomId to an Array of events. Room keys are
payload values (the handlers pass whatever truthy roomId the client sent);
the Map holds at most one entry per key. -/

/-- The in-memory canvas state cache: Map from roomId to event array. -/
abbrev Cache := List (Val × List Obj)

/-- Whether the Map holds an entry for the room (canvasStateCache.has). -/
def cacheHas : Cache → Val → Bool
  | [], _ => false
  | (k, _) :: rest, r => k = r || cacheHas rest r

/-- The event log the cache associates to a room, the empty log when the
room is absent. This is the read view every handler sees after calling
getCanvasState. -/
def cacheLog : Cache → Val → List Obj
  | [], _ => []
  | (k, l) :: rest, r => if k = r then l else cacheLog rest r

/-- getCanvasState without a following push: materialises an empty entry
for a missing room and leaves present rooms untouched. -/
def ensureRoom (c : Cache) (r : Val) : Cache :=
  if cacheHas c r then c else c ++ [(r, [])]

/-- getCanvasState followed by state.push(e): appends e to the room entry,
creating the entry on demand. -/
def cachePush : Cache → Val → Obj → Cache
  | [], r, e => [(r, [e])]
  | (k, l) :: rest, r, e =>
    if k = r then (k, l ++ [e]) :: rest else (k, l) :: cachePush rest r e

/-- clearCanvasState: canvasStateCache.delete(roomId). -/
def cacheClear : Cache → Val → Cache
  | [], _ => []
  | (k, l) :: rest, r =>
    if k = r then cacheClear rest r else (k, l) :: cacheClear rest r

/-! ## Rooms (socket.io adapter) -/

/-- io.sockets.adapter.rooms: Map from room name to the set of socket ids
in it (modelled as a duplicate-free list in join order). -/
abbrev Rooms := List (Val × List String)

/-- The members of a room; the empty list when the room does not exist
(the server reads sizes as rooms.get(roomId)?.size or 0). -/
def roomMembers : Rooms → Val → List String
  | [], _ => []
  | (k, m) :: rest, r => if k = r then m else roomMembers rest r

/-- socket.join(roomId): adds the socket to the room, creating the room on
demand; joining a room the socket is already in is a no-op. -/
def roomJoin : Rooms → Val → String → Rooms
  | [], r, sid => [(r, [sid])]
  | (k, m) :: rest, r, sid =>
    if k = r then (k, if m.contains sid then m else m ++ [sid]) :: rest
    else (k, m) :: roomJoin rest r sid

/-- socket.leave(roomId): removes the socket from the room. -/
def roomLeave : Rooms → Val → String → Rooms
  | [], _, _ => []
  | (k, m) :: rest, r, sid =>
    if k = r then (k, m.filter (fun x => x ≠ sid)) :: rest
    else (k, m) :: roomLeave rest r sid

/-- Removal of a socket from every room, performed by the transport when
the socket disconnects. -/
def roomsDropSocket (rs : Rooms) (sid : String) : Rooms :=
  rs.map (fun rm => (rm.1, rm.2.filter (fun x => x ≠ sid)))

/-- The rooms a socket is currently in (socket.rooms). -/
def roomsOf (rs : Rooms) (sid : String) : List Val :=
  (rs.filter (fun rm => rm.2.contains sid)).map (fun rm => rm.1)

/-! ## Socket.io auth middleware -/

/-- The user object returned by supabase.auth.getUser: id, email, and the
optional user_metadata.display_name. -/
structure SupabaseUser where
  id : String
  email : String
  displayName : Option String
  deriving DecidableEq, Repr

/-- Outcome of the io.use middleware: either next(new Error(message)),
which refuses the connection, or acceptance with the identity fields the
middleware attaches to the socket. -/
inductive AuthOutcome where
  | refused : String → AuthOutcome
  | accepted : (userId : String) → (userEmail : String) → (userName : String) → AuthOutcome
  deriving DecidableEq, Repr

/-- The JS expression a or-else b where a is a possibly absent string and
the empty string is falsy. -/
def strOrFalsy (a : Option String) (b : String) : String :=
  match a with
  | some s => if s = "" then b else s
  | none => b

/-- The socket auth middleware. The external identity verifier
supabase.auth.getUser is a parameter: none covers both an error result and
a missing user. The display name is user_metadata display_name, falling
back to the part of the email before the at sign. -/
def ioUseAuth (verifier : String → Option SupabaseUser) (token : Option String) :
    AuthOutcome :=
  match token with
  | none => AuthOutcome.refused "Authentication token required"
  | some t =>
    match verifier t with
    | none => AuthOutcome.refused "Invalid authentication token"
    | some user =>
      AuthOutcome.accepted user.id user.email
        (strOrFalsy user.displayName ((user.email.splitOn "@").headD ""))

/-- A connected socket: the connection id plus the identity fields the
auth middleware attached. A Socket value exists only for connections the
middleware accepted, so every handler below runs with identity attached. -/
structure Socket where
  sid : String
  userId : String
  userEmail : String
  userName : String
  deriving DecidableEq, Repr

/-- The connection gate: a socket object is produced only when the
middleware accepts; a refused handshake yields no socket, hence no handler
can run for it and it can join no room and emit no operation. -/
def acceptConnection (verifier : String → Option SupabaseUser)
    (token : Option String) (sid : String) : Option Socket :=
  match ioUseAuth verifier token with
  | AuthOutcome.refused _ => none
  | AuthOutcome.accepted uid email name => some ⟨sid, uid, email, name⟩

/-! ## Durable store (mongoose Whiteboard.activeUsers, ChatMessage) -/

/-- One element of a Whiteboard document activeUsers array, tagged with the
id of the board document holding it. Dates are modelled as Nat
timestamps. -/
structure ActiveUser where
  boardId : String
  userId : String
  socketId : String
  joinedAt : Nat
  lastActivity : Nat
  deriving DecidableEq, Repr

/-- A persisted ChatMessage document (the fields the socket handler
writes). -/
structure ChatRecord where
  whiteboardId : String
  userId : String
  userName : String
  text : String
  createdAt : Nat
  deriving DecidableEq, Repr

/-- updateOne with a positional set: applies f to the first list element
satisfying p and leaves the rest unchanged. -/
def updateFirst (p : α → Bool) (f : α → α) : List α → List α
  | [] => []
  | x :: xs => if p x then f x :: xs else x :: updateFirst p f xs

/-- addToSet semantics used on join: append the record unless an equal one
is already present. -/
def addToSet (l : List ActiveUser) (a : ActiveUser) : List ActiveUser :=
  if l.contains a then l else l ++ [a]

/-- The draw handler activity write: updateOne matching the board document
by id and an activeUsers element by socketId, setting that element
lastActivity. A roomId that is not a valid ObjectId makes the query reject
(cast error), which the fire-and-forget catch only logs: no store change. -/
def refreshActivity (l : List ActiveUser) (rid : Val) (sid : String) (now : Nat) :
    List ActiveUser :=
  match rid with
  | Val.vstr r =>
    if isValidObjectId r then
      updateFirst (fun a => a.boardId == r && a.socketId == sid)
        (fun a => { a with lastActivity := now }) l
    else l
  | _ => l

/-- The leave handler membership removal: updateOne on the board document
pulls every activeUsers element with this socketId. -/
def pullActive (l : List ActiveUser) (r : String) (sid : String) : List ActiveUser :=
  l.filter (fun a => !(a.boardId == r && a.socketId == sid))

/-! ## Server state, emitted messages and delivery -/

/-- Whole observable server state: the canvas cache, the adapter rooms,
the set of open connections, the durable membership records across all
board documents, and the persisted chat log. -/
structure ServerState where
  cache : Cache
  rooms : Rooms
  connected : List String
  activeUsers : List ActiveUser
  chatLog : List ChatRecord
  deriving DecidableEq, Repr

/-- Emission targets used by the handlers: socket.to(room).emit reaches
the room except the sender, io.to(room).emit reaches the whole room, and
socket.emit reaches only the socket itself. -/
inductive Target where
  | exceptSender : Val → String → Target
  | room : Val → Target
  | self : String → Target
  deriving DecidableEq, Repr

/-- An emitted payload: an ordinary object, or the canvas-state payload
which carries the roomId together with the replayed event array. -/
inductive Load where
  | obj : Obj → Load
  | batch : Val → List Obj → Load
  deriving DecidableEq, Repr

/-- One emit performed by a handler. -/
structure Msg where
  target : Target
  event : String
  load : Load
  deriving DecidableEq, Repr

/-- The sockets a target resolves to at the moment of emission. -/
def recipients (s : ServerState) : Target → List String
  | Target.exceptSender r sid => (roomMembers s.rooms r).filter (fun m => m ≠ sid)
  | Target.room r => roomMembers s.rooms r
  | Target.self sid => [sid]

/-- One message as delivered to one socket. -/
structure Delivery where
  dest : String
  event : String
  load : Load
  deriving DecidableEq, Repr

/-- Fan a list of emits out to their recipients, in emission order. -/
def deliverAll (s : ServerState) (ms : List Msg) : List Delivery :=
  ms.flatMap (fun m => (recipients s m.target).map (fun d => ⟨d, m.event, m.load⟩))

/-! ## Event handlers

Each socket.on handler becomes a function from state, socket, payload (and
the current time where the handler reads the clock) to the next state and
the list of emits, in emission order. -/

/-- A new connection: the transport registers the socket as connected and
joins it to its personal room named by its own id. -/
def connectSocket (s : ServerState) (sock : Socket) : ServerState :=
  { s with connected := s.connected ++ [sock.sid],
           rooms := roomJoin s.rooms (Val.vstr sock.sid) sock.sid }

/-- The join handler. Validation: a falsy or non-string roomId answers a
local error event. Then socket.join. A roomId that is not a valid ObjectId
returns early (not a db-backed board), skipping the membership upsert, the
user-joined and room-info emits and the canvas-state replay. Otherwise the
membership record is upserted, user-joined goes to the rest of the room,
room-info with the freshly computed room size to the whole room, and the
cached canvas state, when non-empty, to the joiner alone. -/
def joinHandler (s : ServerState) (sock : Socket) (payload : Obj) (now : Nat) :
    ServerState × List Msg :=
  match payload.get "roomId" with
  | some (Val.vstr r) =>
    if r = "" then
      (s, [⟨Target.self sock.sid, "error", Load.obj [("message", Val.vstr "Invalid room id")]⟩])
    else
      let rid := Val.vstr r
      let s1 := { s with rooms := roomJoin s.rooms rid sock.sid }
      if isValidObjectId r then
        let s2 := { s1 with activeUsers := addToSet s1.activeUsers ⟨r, sock.userId, sock.sid, now, now⟩ }
        let roomSize := (roomMembers s2.rooms rid).length
        let s3 := { s2 with cache := ensureRoom s2.cache rid }
        let current := cacheLog s3.cache rid
        (s3,
          [⟨Target.exceptSender rid sock.sid, "user-joined",
             Load.obj [("userId", Val.vstr sock.userId), ("userName", Val.vstr sock.userName),
                       ("socketId", Val.vstr sock.sid)]⟩,
           ⟨Target.room rid, "room-info",
             Load.obj [("userCount", Val.vnum (Int.ofNat roomSize)), ("roomId", rid)]⟩]
          ++ (if current.isEmpty then [] else
               [⟨Target.self sock.sid, "canvas-state", Load.batch rid current⟩]))
      else
        (s1, [])
  | _ =>
    (s, [⟨Target.self sock.sid, "error", Load.obj [("message", Val.vstr "Invalid room id")]⟩])

/-- The draw handler: falsy roomId is ignored; otherwise the entry with the
draw tag and the spread payload is pushed on the room cache, the raw
payload is re-emitted to the room except the sender, and the activity
timestamp write is issued fire-and-forget. -/
def drawHandler (s : ServerState) (sock : Socket) (payload : Obj) (now : Nat) :
    ServerState × List Msg :=
  match payload.get "roomId" with
  | some rid =>
    if rid.truthy then
      let s1 := { s with cache := cachePush s.cache rid (mkEntry "draw" payload) }
      let s2 := { s1 with activeUsers := refreshActivity s1.activeUsers rid sock.sid now }
      (s2, [⟨Target.exceptSender rid sock.sid, "draw", Load.obj payload⟩])
    else (s, [])
  | none => (s, [])

/-- The common shape of the erase, shape, text, fill, selection-cut and
paste-selection handlers: cache the tagged entry and re-broadcast the raw
payload to the room except the sender. No activity write. -/
def cacheOpHandler (ev : String) (s : ServerState) (sock : Socket) (payload : Obj) :
    ServerState × List Msg :=
  match payload.get "roomId" with
  | some rid =>
    if rid.truthy then
      ({ s with cache := cachePush s.cache rid (mkEntry ev payload) },
       [⟨Target.exceptSender rid sock.sid, ev, Load.obj payload⟩])
    else (s, [])
  | none => (s, [])

/-- text-typing: not cached; the payload spread plus the sender userId is
broadcast to the room except the sender. -/
def textTypingHandler (s : ServerState) (sock : Socket) (payload : Obj) :
    ServerState × List Msg :=
  match payload.get "roomId" with
  | some rid =>
    if rid.truthy then
      (s, [⟨Target.exceptSender rid sock.sid, "text-typing",
            Load.obj (payload.set "userId" (Val.vstr sock.userId))⟩])
    else (s, [])
  | none => (s, [])

/-- text-finalized: broadcasts only the sender userId to the room except
the sender. -/
def textFinalizedHandler (s : ServerState) (sock : Socket) (payload : Obj) :
    ServerState × List Msg :=
  match payload.get "roomId" with
  | some rid =>
    if rid.truthy then
      (s, [⟨Target.exceptSender rid sock.sid, "text-finalized",
            Load.obj [("userId", Val.vstr sock.userId)]⟩])
    else (s, [])
  | none => (s, [])

/-- board-cleared: deletes the cache entry for the room and relays the
clear to the room except the sender (emitted with no payload). -/
def boardClearedHandler (s : ServerState) (sock : Socket) (payload : Obj) :
    ServerState × List Msg :=
  match payload.get "roomId" with
  | some rid =>
    if rid.truthy then
      ({ s with cache := cacheClear s.cache rid },
       [⟨Target.exceptSender rid sock.sid, "board-cleared", Load.obj []⟩])
    else (s, [])
  | none => (s, [])

/-- board-saved: deletes the cache entry for the room; nothing is emitted. -/
def boardSavedHandler (s : ServerState) (_sock : Socket) (payload : Obj) :
    ServerState × List Msg :=
  match payload.get "roomId" with
  | some rid =>
    if rid.truthy then ({ s with cache := cacheClear s.cache rid }, [])
    else (s, [])
  | none => (s, [])

/-- board:request-sync: relays the snapshot request to the room except the
sender. -/
def requestSyncHandler (s : ServerState) (sock : Socket) (payload : Obj) :
    ServerState × List Msg :=
  match payload.get "roomId" with
  | some rid =>
    if rid.truthy then
      (s, [⟨Target.exceptSender rid sock.sid, "board:request-sync",
            Load.obj [("roomId", rid)]⟩])
    else (s, [])
  | none => (s, [])

/-- board:load-snapshot: requires truthy roomId and img; relays roomId, img
and bounds to the room except the sender. -/
def loadSnapshotHandler (s : ServerState) (sock : Socket) (payload : Obj) :
    ServerState × List Msg :=
  match payload.get "roomId", payload.get "img" with
  | some rid, some img =>
    if rid.truthy && img.truthy then
      (s, [⟨Target.exceptSender rid sock.sid, "board:load-snapshot",
            Load.obj ([("roomId", rid), ("img", img)] ++
              (match payload.get "bounds" with
               | some b => [("bounds", b)]
               | none => []))⟩])
    else (s, [])
  | _, _ => (s, [])

/-- chatMessage: validates roomId truthy and text a non-blank string, else
a local Invalid message format error; persists the trimmed message (the
created document id is modelled by the insertion index) and emits it to
the whole room. A roomId that cannot cast to an ObjectId makes the create
reject, answered by a local Failed to send message error. -/
def chatMessageHandler (s : ServerState) (sock : Socket) (payload : Obj) (now : Nat) :
    ServerState × List Msg :=
  match payload.get "roomId", payload.get "text" with
  | some rid, some (Val.vstr text) =>
    if rid.truthy && !(text.trim == "") then
      match rid with
      | Val.vstr r =>
        if isValidObjectId r then
          ({ s with chatLog := s.chatLog ++ [⟨r, sock.userId, sock.userName, text.trim, now⟩] },
           [⟨Target.room rid, "chatMessage",
              Load.obj [("_id", Val.vnum (Int.ofNat s.chatLog.length)),
                        ("user", Val.vstr sock.userName),
                        ("userId", Val.vstr sock.userId),
                        ("text", Val.vstr text.trim),
                        ("timestamp", Val.vnum (Int.ofNat now))]⟩])
        else
          (s, [⟨Target.self sock.sid, "error",
                Load.obj [("message", Val.vstr "Failed to send message")]⟩])
      | _ =>
        (s, [⟨Target.self sock.sid, "error",
              Load.obj [("message", Val.vstr "Failed to send message")]⟩])
    else
      (s, [⟨Target.self sock.sid, "error",
            Load.obj [("message", Val.vstr "Invalid message format")]⟩])
  | _, _ =>
    (s, [⟨Target.self sock.sid, "error",
          Load.obj [("message", Val.vstr "Invalid message format")]⟩])

/-- typing: broadcast to the whole room with the sender identity and the
boolean coercion of isTyping. -/
def typingHandler (s : ServerState) (sock : Socket) (payload : Obj) :
    ServerState × List Msg :=
  match payload.get "roomId" with
  | some rid =>
    if rid.truthy then
      (s, [⟨Target.room rid, "typing",
            Load.obj [("userId", Val.vstr sock.userId),
                      ("userName", Val.vstr sock.userName),
                      ("isTyping", Val.vbool (((payload.get "isTyping").map Val.truthy).getD false))]⟩])
    else (s, [])
  | none => (s, [])

/-- cursor: relays the sender identity and the cursor coordinates to the
room except the sender as cursor-move. -/
def cursorHandler (s : ServerState) (sock : Socket) (payload : Obj) :
    ServerState × List Msg :=
  match payload.get "roomId" with
  | some rid =>
    if rid.truthy then
      (s, [⟨Target.exceptSender rid sock.sid, "cursor-move",
            Load.obj ([("userId", Val.vstr sock.userId), ("userName", Val.vstr sock.userName)] ++
              (match payload.get "x" with | some v => [("x", v)] | none => []) ++
              (match payload.get "y" with | some v => [("y", v)] | none => []))⟩])
    else (s, [])
  | none => (s, [])

/-- leave: socket.leave, then the membership pull on the board document,
then user-left to the rest of the room. A roomId that cannot cast to an
ObjectId makes the awaited pull reject before the emit: the handler catch
logs it and nothing is emitted. No room-info broadcast occurs on this
path. -/
def leaveHandler (s : ServerState) (sock : Socket) (payload : Obj) :
    ServerState × List Msg :=
  match payload.get "roomId" with
  | some rid =>
    if rid.truthy then
      let s1 := { s with rooms := roomLeave s.rooms rid sock.sid }
      match rid with
      | Val.vstr r =>
        if isValidObjectId r then
          ({ s1 with activeUsers := pullActive s1.activeUsers r sock.sid },
           [⟨Target.exceptSender rid sock.sid, "user-left",
              Load.obj [("userId", Val.vstr sock.userId), ("userName", Val.vstr sock.userName)]⟩])
        else (s1, [])
      | _ => (s1, [])
    else (s, [])
  | none => (s, [])

/-- disconnect: in socket.io v3/v4 the closing socket leaves every room
(its own id room included) before the disconnect event fires, so the
transport has already removed it from every room and from the connection
set when this handler runs. The handler then reads socket.rooms — by that
point the empty set — filters out the personal room name and iterates the
result, so its per-room user-left and room-info notification loop runs
zero times; only the membership pull across all board documents takes
effect. -/
def disconnectHandler (s : ServerState) (sock : Socket) : ServerState × List Msg :=
  let s1 := { s with rooms := roomsDropSocket s.rooms sock.sid,
                     connected := s.connected.filter (fun c => c ≠ sock.sid) }
  let wasRooms := (roomsOf s1.rooms sock.sid).filter (fun r => r ≠ Val.vstr sock.sid)
  let s2 := { s1 with activeUsers := s1.activeUsers.filter (fun a => !(a.socketId == sock.sid)) }
  (s2, wasRooms.flatMap (fun rid =>
     [⟨Target.exceptSender rid sock.sid, "user-left",
        Load.obj [("userId", Val.vstr sock.userId), ("userName", Val.vstr sock.userName)]⟩,
      ⟨Target.room rid, "room-info",
        Load.obj [("userCount", Val.vnum (Int.ofNat (roomMembers s1.rooms rid).length)),
                  ("roomId", rid)]⟩]))

/-- The registered listeners, dispatched by event name; an event with no
listener does nothing. -/
def handleMessage (s : ServerState) (sock : Socket) (ev : String) (payload : Obj)
    (now : Nat) : ServerState × List Msg :=
  if ev = "join" then joinHandler s sock payload now
  else if ev = "draw" then drawHandler s sock payload now
  else if ev = "erase" then cacheOpHandler "erase" s sock payload
  else if ev = "shape" then cacheOpHandler "shape" s sock payload
  else if ev = "text" then cacheOpHandler "text" s sock payload
  else if ev = "text-typing" then textTypingHandler s sock payload
  else if ev = "text-finalized" then textFinalizedHandler s sock payload
  else if ev = "fill" then cacheOpHandler "fill" s sock payload
  else if ev = "selection-cut" then cacheOpHandler "selection-cut" s sock payload
  else if ev = "paste-selection" then cacheOpHandler "paste-selection" s sock payload
  else if ev = "board-cleared" then boardClearedHandler s sock payload
  else if ev = "board-saved" then boardSavedHandler s sock payload
  else if ev = "board:request-sync" then requestSyncHandler s sock payload
  else if ev = "board:load-snapshot" then loadSnapshotHandler s sock payload
  else if ev = "chatMessage" then chatMessageHandler s sock payload now
  else if ev = "typing" then typingHandler s sock payload
  else if ev = "cursor" then cursorHandler s sock payload
  else if ev = "leave" then leaveHandler s sock payload
  else if ev = "disconnect" then disconnectHandler s sock
  else (s, [])

/-- One inbound message: the emitting socket, the event name, the payload
and the arrival time. -/
structure InEvent where
  sock : Socket
  event : String
  payload : Obj
  now : Nat
  deriving DecidableEq, Repr

/-- The single-threaded event loop: each inbound message is handled to
completion, its emits fanned out against the post-handler state, before
the next message is processed. -/
def runServer : ServerState → List InEvent → ServerState × List Delivery
  | s, [] => (s, [])
  | s, e :: rest =>
    let step := handleMessage s e.sock e.event e.payload e.now
    let tail := runServer step.1 rest
    (tail.1, deliverAll step.1 step.2 ++ tail.2)

/-- The ordered list of events one socket received during a run. -/
def receivedBy (sid : String) (ds : List Delivery) : List (String × Load) :=
  (ds.filter (fun d => d.dest == sid)).map (fun d => (d.event, d.load))

/-- The value of the last property assignment for a key in a payload (for
a runtime JS object, keys are unique and this is the only occurrence). -/
def lastVal : Obj → String → Option Val
  | [], _ => none
  | (k, v) :: rest, key =>
    match lastVal rest key with
    | some w => some w
    | none => if k = key then some v else none

/-- The seven operation events whose handlers append to the canvas cache. -/
def opEvents : List String :=
  ["draw", "erase", "shape", "text", "fill", "selection-cut", "paste-selection"]

/-- How one handler invocation may change the cache: untouched, one entry
pushed on one room log, one room entry deleted, or one empty room entry
materialised. -/
def cacheEvolves (old new : Cache) : Prop :=
  new = old ∨ (∃ rid e, new = cachePush old rid e) ∨
  (∃ rid, new = cacheClear old rid) ∨ (∃ rid, new = ensureRoom old rid)

/-! ## Support lemmas about the cache and objects -/

theorem cacheLog_of_not_has {c : Cache} {r : Val} (h : cacheHas c r = false) :
    cacheLog c r = [] := by
  induction c with
  | nil => rfl
  | cons kv rest ih =>
    obtain ⟨k, l⟩ := kv
    simp only [cacheHas, Bool.or_eq_false_iff, decide_eq_false_iff_not] at h
    simp only [cacheLog, if_neg h.1]
    exact ih h.2

theorem cacheLog_append (c d : Cache) (r : Val) :
    cacheLog (c ++ d) r = if cacheHas c r then cacheLog c r else cacheLog d r := by
  induction c with
  | nil => simp [cacheHas, cacheLog]
  | cons kv rest ih =>
    obtain ⟨k, l⟩ := kv
    simp only [List.cons_append, cacheLog, cacheHas]
    by_cases hk : k = r
    · simp [hk]
    · simp [hk, ih]

theorem cacheLog_ensureRoom (c : Cache) (r r' : Val) :
    cacheLog (ensureRoom c r) r' = cacheLog c r' := by
  unfold ensureRoom
  by_cases h : cacheHas c r
  · simp [h]
  · simp only [h, Bool.false_eq_true, if_false, cacheLog_append]
    by_cases h' : cacheHas c r'
    · simp [h']
    · simp only [h', Bool.false_eq_true, if_false, cacheLog_of_not_has (by simpa using h')]
      by_cases hrr : r = r'
      · subst hrr
        simp [cacheLog, cacheLog_of_not_has (by simpa using h)]
      · simp [cacheLog, hrr]

theorem cacheLog_cachePush (c : Cache) (r r' : Val) (e : Obj) :
    cacheLog (cachePush c r e) r' =
      if r' = r then cacheLog c r' ++ [e] else cacheLog c r' := by
  induction c with
  | nil =>
    by_cases h : r' = r
    · subst h; simp [cachePush, cacheLog]
    · simp [cachePush, cacheLog, h, Ne.symm h]
  | cons kv rest ih =>
    obtain ⟨k, l⟩ := kv
    by_cases hk : k = r
    · subst hk
      by_cases h' : r' = k
      · subst h'; simp [cachePush, cacheLog]
      · simp [cachePush, cacheLog, h', Ne.symm h']
    · by_cases h' : r' = k
      · subst h'; simp [cachePush, cacheLog, hk, Ne.symm hk]
      · simp [cachePush, cacheLog, hk, h', Ne.symm h', ih]

theorem cacheLog_cacheClear (c : Cache) (r r' : Val) :
    cacheLog (cacheClear c r) r' = if r' = r then [] else cacheLog c r' := by
  induction c with
  | nil => simp [cacheClear, cacheLog]
  | cons kv rest ih =>
    obtain ⟨k, l⟩ := kv
    by_cases hk : k = r
    · subst hk
      by_cases h' : r' = k
      · subst h'; simp [cacheClear, ih]
      · simp [cacheClear, cacheLog, ih, h', Ne.symm h']
    · by_cases h' : r' = k
      · subst h'; simp [cacheClear, cacheLog, hk]
      · simp [cacheClear, cacheLog, hk, h', Ne.symm h', ih]

theorem cacheHas_cacheClear (c : Cache) (r : Val) :
    cacheHas (cacheClear c r) r = false := by
  induction c with
  | nil => rfl
  | cons kv rest ih =>
    obtain ⟨k, l⟩ := kv
    by_cases hk : k = r
    · simpa [cacheClear, hk] using ih
    · simpa [cacheClear, cacheHas, hk] using ih

theorem cacheClear_of_not_has {c : Cache} {r : Val} (h : cacheHas c r = false) :
    cacheClear c r = c := by
  induction c with
  | nil => rfl
  | cons kv rest ih =>
    obtain ⟨k, l⟩ := kv
    simp only [cacheHas, Bool.or_eq_false_iff, decide_eq_false_iff_not] at h
    simp [cacheClear, if_neg h.1, ih h.2]

theorem cacheClear_idem (c : Cache) (r : Val) :
    cacheClear (cacheClear c r) r = cacheClear c r :=
  cacheClear_of_not_has (cacheHas_cacheClear c r)

/-- Reading a key after a JS property assignment. -/
theorem Obj.get_set (o : Obj) (k k' : String) (v : Val) :
    Obj.get (Obj.set o k v) k' = if k = k' then some v else Obj.get o k' := by
  induction o with
  | nil =>
    by_cases h : k = k'
    · subst h; simp [Obj.set, Obj.get]
    · simp [Obj.set, Obj.get, h]
  | cons kv rest ih =>
    obtain ⟨a, w⟩ := kv
    by_cases ha : a = k
    · subst ha
      by_cases h' : a = k'
      · subst h'; simp [Obj.set, Obj.get]
      · simp [Obj.set, Obj.get, h']
    · by_cases h' : a = k'
      · subst h'
        simp [Obj.set, Obj.get, ha, Ne.symm ha]
      · simp [Obj.set, Obj.get, ha, h', ih]

theorem get_foldl_set (p : Obj) (init : Obj) (k : String) :
    Obj.get (p.foldl (fun acc kv => acc.set kv.1 kv.2) init) k =
      match lastVal p k with
      | some w => some w
      | none => Obj.get init k := by
  induction p generalizing init with
  | nil => simp [lastVal]
  | cons a p ih =>
    obtain ⟨ak, av⟩ := a
    simp only [List.foldl_cons, ih, lastVal]
    cases hl : lastVal p k with
    | some w => simp
    | none =>
      rw [Obj.get_set]
      by_cases hak : ak = k <;> simp [hak]

theorem lastVal_of_not_mem {p : Obj} {k : String} (h : k ∉ p.map Prod.fst) :
    lastVal p k = none := by
  induction p with
  | nil => rfl
  | cons a p ih =>
    obtain ⟨ak, av⟩ := a
    simp only [List.map_cons, List.mem_cons, not_or] at h
    simp [lastVal, ih h.2, Ne.symm h.1]

theorem lastVal_eq_get_of_nodup {p : Obj} (hn : (p.map Prod.fst).Nodup) (k : String) :
    lastVal p k = Obj.get p k := by
  induction p with
  | nil => rfl
  | cons a p ih =>
    obtain ⟨ak, av⟩ := a
    simp only [List.map_cons, List.nodup_cons] at hn
    by_cases hk : ak = k
    · subst hk
      simp [lastVal, Obj.get, lastVal_of_not_mem hn.1]
    · simp only [lastVal, Obj.get, if_neg hk, ih hn.2]
      cases Obj.get p k <;> simp [hk]

/-- Reading the discriminant of a cached entry: the payload spread comes
after the tag, so a payload property named type wins; the tag shows only
when the payload has no such property. -/
theorem mkEntry_get_type (tag : String) (p : Obj) (hn : (p.map Prod.fst).Nodup) :
    Obj.get (mkEntry tag p) "type" =
      match Obj.get p "type" with
      | some w => some w
      | none => some (Val.vstr tag) := by
  unfold mkEntry
  rw [get_foldl_set, ← lastVal_eq_get_of_nodup hn]
  cases lastVal p "type" with
  | some w => simp
  | none => simp [Obj.get]

/-! ## Dispatch lemmas: which listener a literal event name reaches -/

theorem handle_join (s : ServerState) (sock : Socket) (p : Obj) (now : Nat) :
    handleMessage s sock "join" p now = joinHandler s sock p now := rfl

theorem handle_draw (s : ServerState) (sock : Socket) (p : Obj) (now : Nat) :
    handleMessage s sock "draw" p now = drawHandler s sock p now := rfl

theorem handle_erase (s : ServerState) (sock : Socket) (p : Obj) (now : Nat) :
    handleMessage s sock "erase" p now = cacheOpHandler "erase" s sock p := rfl

theorem handle_shape (s : ServerState) (sock : Socket) (p : Obj) (now : Nat) :
    handleMessage s sock "shape" p now = cacheOpHandler "shape" s sock p := rfl

theorem handle_text (s : ServerState) (sock : Socket) (p : Obj) (now : Nat) :
    handleMessage s sock "text" p now = cacheOpHandler "text" s sock p := rfl

theorem handle_fill (s : ServerState) (sock : Socket) (p : Obj) (now : Nat) :
    handleMessage s sock "fill" p now = cacheOpHandler "fill" s sock p := rfl

theorem handle_selection_cut (s : ServerState) (sock : Socket) (p : Obj) (now : Nat) :
    handleMessage s sock "selection-cut" p now = cacheOpHandler "selection-cut" s sock p := rfl

theorem handle_paste_selection (s : ServerState) (sock : Socket) (p : Obj) (now : Nat) :
    handleMessage s sock "paste-selection" p now = cacheOpHandler "paste-selection" s sock p := rfl

theorem handle_board_cleared (s : ServerState) (sock : Socket) (p : Obj) (now : Nat) :
    handleMessage s sock "board-cleared" p now = boardClearedHandler s sock p := rfl

theorem handle_board_saved (s : ServerState) (sock : Socket) (p : Obj) (now : Nat) :
    handleMessage s sock "board-saved" p now = boardSavedHandler s sock p := rfl

theorem handle_text_typing (s : ServerState) (sock : Socket) (p : Obj) (now : Nat) :
    handleMessage s sock "text-typing" p now = textTypingHandler s sock p := rfl

theorem handle_text_finalized (s : ServerState) (sock : Socket) (p : Obj) (now : Nat) :
    handleMessage s sock "text-finalized" p now = textFinalizedHandler s sock p := rfl

theorem handle_request_sync (s : ServerState) (sock : Socket) (p : Obj) (now : Nat) :
    handleMessage s sock "board:request-sync" p now = requestSyncHandler s sock p := rfl

theorem handle_load_snapshot (s : ServerState) (sock : Socket) (p : Obj) (now : Nat) :
    handleMessage s sock "board:load-snapshot" p now = loadSnapshotHandler s sock p := rfl

theorem handle_chatMessage (s : ServerState) (sock : Socket) (p : Obj) (now : Nat) :
    handleMessage s sock "chatMessage" p now = chatMessageHandler s sock p now := rfl

theorem handle_typing (s : ServerState) (sock : Socket) (p : Obj) (now : Nat) :
    handleMessage s sock "typing" p now = typingHandler s sock p := rfl

theorem handle_cursor (s : ServerState) (sock : Socket) (p : Obj) (now : Nat) :
    handleMessage s sock "cursor" p now = cursorHandler s sock p := rfl

theorem handle_leave (s : ServerState) (sock : Socket) (p : Obj) (now : Nat) :
    handleMessage s sock "leave" p now = leaveHandler s sock p := rfl

theorem handle_disconnect (s : ServerState) (sock : Socket) (p : Obj) (now : Nat) :
    handleMessage s sock "disconnect" p now = disconnectHandler s sock := rfl

/-! ## Handler shape lemmas -/

/-- The normal form of the seven caching operation handlers on a valid
payload: one tagged entry pushed on the room cache, one broadcast of the
raw payload to the room except the sender, rooms and connections
untouched. -/
theorem opHandler_normal (ev : String) (s : ServerState) (sock : Socket) (payload : Obj)
    (now : Nat) (rid : Val)
    (hev : ev ∈ opEvents)
    (hpay : payload.get "roomId" = some rid) (ht : rid.truthy = true) :
    ∃ s₂ : ServerState,
      handleMessage s sock ev payload now =
        (s₂, [⟨Target.exceptSender rid sock.sid, ev, Load.obj payload⟩]) ∧
      s₂.cache = cachePush s.cache rid (mkEntry ev payload) ∧
      s₂.rooms = s.rooms ∧ s₂.connected = s.connected := by
  simp only [opEvents, List.mem_cons, List.not_mem_nil, or_false] at hev
  rcases hev with h | h | h | h | h | h | h <;> subst h
  · rw [handle_draw]; unfold drawHandler; rw [hpay]; simp only [ht, if_true]
    exact ⟨_, rfl, rfl, rfl, rfl⟩
  · rw [handle_erase]; unfold cacheOpHandler; rw [hpay]; simp only [ht, if_true]
    exact ⟨_, rfl, rfl, rfl, rfl⟩
  · rw [handle_shape]; unfold cacheOpHandler; rw [hpay]; simp only [ht, if_true]
    exact ⟨_, rfl, rfl, rfl, rfl⟩
  · rw [handle_text]; unfold cacheOpHandler; rw [hpay]; simp only [ht, if_true]
    exact ⟨_, rfl, rfl, rfl, rfl⟩
  · rw [handle_fill]; unfold cacheOpHandler; rw [hpay]; simp only [ht, if_true]
    exact ⟨_, rfl, rfl, rfl, rfl⟩
  · rw [handle_selection_cut]; unfold cacheOpHandler; rw [hpay]; simp only [ht, if_true]
    exact ⟨_, rfl, rfl, rfl, rfl⟩
  · rw [handle_paste_selection]; unfold cacheOpHandler; rw [hpay]; simp only [ht, if_true]
    exact ⟨_, rfl, rfl, rfl, rfl⟩

/-! ## How each handler can change the cache -/

theorem joinHandler_cacheEvolves (s : ServerState) (sock : Socket) (p : Obj) (now : Nat) :
    cacheEvolves s.cache (joinHandler s sock p now).1.cache := by
  unfold cacheEvolves joinHandler
  repeat' split
  all_goals
    first
    | exact Or.inl rfl
    | exact Or.inr (Or.inr (Or.inr ⟨_, rfl⟩))

theorem drawHandler_cacheEvolves (s : ServerState) (sock : Socket) (p : Obj) (now : Nat) :
    cacheEvolves s.cache (drawHandler s sock p now).1.cache := by
  unfold cacheEvolves drawHandler
  repeat' split
  all_goals
    first
    | exact Or.inl rfl
    | exact Or.inr (Or.inl ⟨_, _, rfl⟩)

theorem cacheOpHandler_cacheEvolves (ev : String) (s : ServerState) (sock : Socket) (p : Obj) :
    cacheEvolves s.cache (cacheOpHandler ev s sock p).1.cache := by
  unfold cacheEvolves cacheOpHandler
  repeat' split
  all_goals
    first
    | exact Or.inl rfl
    | exact Or.inr (Or.inl ⟨_, _, rfl⟩)

theorem boardClearedHandler_cacheEvolves (s : ServerState) (sock : Socket) (p : Obj) :
    cacheEvolves s.cache (boardClearedHandler s sock p).1.cache := by
  unfold cacheEvolves boardClearedHandler
  repeat' split
  all_goals
    first
    | exact Or.inl rfl
    | exact Or.inr (Or.inr (Or.inl ⟨_, rfl⟩))

theorem boardSavedHandler_cacheEvolves (s : ServerState) (sock : Socket) (p : Obj) :
    cacheEvolves s.cache (boardSavedHandler s sock p).1.cache := by
  unfold cacheEvolves boardSavedHandler
  repeat' split
  all_goals
    first
    | exact Or.inl rfl
    | exact Or.inr (Or.inr (Or.inl ⟨_, rfl⟩))

theorem textTypingHandler_cacheEvolves (s : ServerState) (sock : Socket) (p : Obj) :
    cacheEvolves s.cache (textTypingHandler s sock p).1.cache := by
  unfold cacheEvolves textTypingHandler
  repeat' split
  all_goals exact Or.inl rfl

theorem textFinalizedHandler_cacheEvolves (s : ServerState) (sock : Socket) (p : Obj) :
    cacheEvolves s.cache (textFinalizedHandler s sock p).1.cache := by
  unfold cacheEvolves textFinalizedHandler
  repeat' split
  all_goals exact Or.inl rfl

theorem requestSyncHandler_cacheEvolves (s : ServerState) (sock : Socket) (p : Obj) :
    cacheEvolves s.cache (requestSyncHandler s sock p).1.cache := by
  unfold cacheEvolves requestSyncHandler
  repeat' split
  all_goals exact Or.inl rfl

theorem loadSnapshotHandler_cacheEvolves (s : ServerState) (sock : Socket) (p : Obj) :
    cacheEvolves s.cache (loadSnapshotHandler s sock p).1.cache := by
  unfold cacheEvolves loadSnapshotHandler
  repeat' split
  all_goals exact Or.inl rfl

theorem chatMessageHandler_cacheEvolves (s : ServerState) (sock : Socket) (p : Obj) (now : Nat) :
    cacheEvolves s.cache (chatMessageHandler s sock p now).1.cache := by
  unfold cacheEvolves chatMessageHandler
  repeat' split
  all_goals exact Or.inl rfl

theorem typingHandler_cacheEvolves (s : ServerState) (sock : Socket) (p : Obj) :
    cacheEvolves s.cache (typingHandler s sock p).1.cache := by
  unfold cacheEvolves typingHandler
  repeat' split
  all_goals exact Or.inl rfl

theorem cursorHandler_cacheEvolves (s : ServerState) (sock : Socket) (p : Obj) :
    cacheEvolves s.cache (cursorHandler s sock p).1.cache := by
  unfold cacheEvolves cursorHandler
  repeat' split
  all_goals exact Or.inl rfl

theorem leaveHandler_cacheEvolves (s : ServerState) (sock : Socket) (p : Obj) :
    cacheEvolves s.cache (leaveHandler s sock p).1.cache := by
  unfold cacheEvolves leaveHandler
  repeat' split
  all_goals exact Or.inl rfl

theorem disconnectHandler_cacheEvolves (s : ServerState) (sock : Socket) :
    cacheEvolves s.cache (disconnectHandler s sock).1.cache := by
  unfold cacheEvolves disconnectHandler
  exact Or.inl rfl

theorem handleMessage_cacheEvolves (s : ServerState) (sock : Socket) (ev : String)
    (payload : Obj) (now : Nat) :
    cacheEvolves s.cache (handleMessage s sock ev payload now).1.cache := by
  by_cases h01 : ev = "join"
  · subst h01; rw [handle_join]; exact joinHandler_cacheEvolves s sock payload now
  by_cases h02 : ev = "draw"
  · subst h02; rw [handle_draw]; exact drawHandler_cacheEvolves s sock payload now
  by_cases h03 : ev = "erase"
  · subst h03; rw [handle_erase]; exact cacheOpHandler_cacheEvolves _ s sock payload
  by_cases h04 : ev = "shape"
  · subst h04; rw [handle_shape]; exact cacheOpHandler_cacheEvolves _ s sock payload
  by_cases h05 : ev = "text"
  · subst h05; rw [handle_text]; exact cacheOpHandler_cacheEvolves _ s sock payload
  by_cases h06 : ev = "text-typing"
  · subst h06; rw [handle_text_typing]; exact textTypingHandler_cacheEvolves s sock payload
  by_cases h07 : ev = "text-finalized"
  · subst h07; rw [handle_text_finalized]; exact textFinalizedHandler_cacheEvolves s sock payload
  by_cases h08 : ev = "fill"
  · subst h08; rw [handle_fill]; exact cacheOpHandler_cacheEvolves _ s sock payload
  by_cases h09 : ev = "selection-cut"
  · subst h09; rw [handle_selection_cut]; exact cacheOpHandler_cacheEvolves _ s sock payload
  by_cases h10 : ev = "paste-selection"
  · subst h10; rw [handle_paste_selection]; exact cacheOpHandler_cacheEvolves _ s sock payload
  by_cases h11 : ev = "board-cleared"
  · subst h11; rw [handle_board_cleared]; exact boardClearedHandler_cacheEvolves s sock payload
  by_cases h12 : ev = "board-saved"
  · subst h12; rw [handle_board_saved]; exact boardSavedHandler_cacheEvolves s sock payload
  by_cases h13 : ev = "board:request-sync"
  · subst h13; rw [handle_request_sync]; exact requestSyncHandler_cacheEvolves s sock payload
  by_cases h14 : ev = "board:load-snapshot"
  · subst h14; rw [handle_load_snapshot]; exact loadSnapshotHandler_cacheEvolves s sock payload
  by_cases h15 : ev = "chatMessage"
  · subst h15; rw [handle_chatMessage]; exact chatMessageHandler_cacheEvolves s sock payload now
  by_cases h16 : ev = "typing"
  · subst h16; rw [handle_typing]; exact typingHandler_cacheEvolves s sock payload
  by_cases h17 : ev = "cursor"
  · subst h17; rw [handle_cursor]; exact cursorHandler_cacheEvolves s sock payload
  by_cases h18 : ev = "leave"
  · subst h18; rw [handle_leave]; exact leaveHandler_cacheEvolves s sock payload
  by_cases h19 : ev = "disconnect"
  · subst h19; rw [handle_disconnect]; exact disconnectHandler_cacheEvolves s sock
  unfold handleMessage
  rw [if_neg h01, if_neg h02, if_neg h03, if_neg h04, if_neg h05, if_neg h06,
      if_neg h07, if_neg h08, if_neg h09, if_neg h10, if_neg h11, if_neg h12,
      if_neg h13, if_neg h14, if_neg h15, if_neg h16, if_neg h17, if_neg h18,
      if_neg h19]
  exact Or.inl rfl

/-! ## Delivery bookkeeping lemmas -/

theorem receivedBy_append (p : String) (a b : List Delivery) :
    receivedBy p (a ++ b) = receivedBy p a ++ receivedBy p b := by
  simp [receivedBy, List.filter_append]

theorem recvBy_map (l : List String) (ev : String) (load : Load) (p : String) :
    receivedBy p (l.map (fun d => Delivery.mk d ev load)) =
      (l.filter (fun m => m == p)).map (fun _ => (ev, load)) := by
  induction l with
  | nil => rfl
  | cons a rest ih =>
    simp only [List.map_cons, receivedBy, List.filter_cons] at ih ⊢
    by_cases h : a == p <;> simp [h, ih]

theorem filter_beq_nil {l : List String} {p : String} (h : p ∉ l) :
    l.filter (fun m => m == p) = [] := by
  induction l with
  | nil => rfl
  | cons a rest ih =>
    simp only [List.mem_cons, not_or] at h
    simp [List.filter_cons, beq_iff_eq, Ne.symm h.1, ih h.2]

theorem filter_beq_singleton {l : List String} {p : String} (hl : l.Nodup) (hp : p ∈ l) :
    l.filter (fun m => m == p) = [p] := by
  induction l with
  | nil => cases hp
  | cons a rest ih =>
    simp only [List.nodup_cons] at hl
    rcases List.mem_cons.mp hp with h | h
    · subst h
      simp [List.filter_cons, filter_beq_nil hl.1]
    · by_cases hap : a = p
      · subst hap
        exact absurd h hl.1
      · simp [List.filter_cons, beq_iff_eq, hap, ih hl.2 h]

/-- What one socket receives from one broadcast fanned out to a room
except the sender. -/
theorem recv_fan (members : List String) (sender p ev : String) (load : Load)
    (hnd : members.Nodup) (hp : p ∈ members) :
    receivedBy p ((members.filter (fun m => m ≠ sender)).map (fun d => Delivery.mk d ev load)) =
      if p = sender then [] else [(ev, load)] := by
  rw [recvBy_map]
  by_cases hps : p = sender
  · have hnot : p ∉ members.filter (fun m => m ≠ sender) := by
      simp [List.mem_filter, hps]
    rw [filter_beq_nil hnot]
    simp [hps]
  · have hmem : p ∈ members.filter (fun m => m ≠ sender) := by
      simp [List.mem_filter, hp, hps]
    rw [filter_beq_singleton (hnd.filter _) hmem]
    simp [hps]

theorem deliverAll_exceptSender (s : ServerState) (rid : Val) (sender ev : String)
    (load : Load) :
    deliverAll s [⟨Target.exceptSender rid sender, ev, load⟩] =
      ((roomMembers s.rooms rid).filter (fun m => m ≠ sender)).map
        (fun d => Delivery.mk d ev load) := by
  simp [deliverAll, recipients]

theorem runServer_cons (s : ServerState) (e : InEvent) (rest : List InEvent) :
    runServer s (e :: rest) =
      ((runServer (handleMessage s e.sock e.event e.payload e.now).1 rest).1,
       deliverAll (handleMessage s e.sock e.event e.payload e.now).1
          (handleMessage s e.sock e.event e.payload e.now).2 ++
       (runServer (handleMessage s e.sock e.event e.payload e.now).1 rest).2) := rfl

theorem validObjectId_ne_empty {r : String} (h : isValidObjectId r = true) : ¬ r = "" := by
  intro he
  subst he
  exact absurd h (by decide)

theorem contains_filter_ne (m : List String) (sid : String) :
    (m.filter (fun x => x ≠ sid)).contains sid = false := by
  simp

/-- After the transport drops a socket from every room, the set of rooms
it is still a member of is empty: what the disconnect handler reads from
socket.rooms. -/
theorem roomsOf_dropSocket (rs : Rooms) (sid : String) :
    roomsOf (roomsDropSocket rs sid) sid = [] := by
  induction rs with
  | nil => rfl
  | cons rm rest ih =>
    obtain ⟨k, m⟩ := rm
    unfold roomsOf roomsDropSocket at *
    simp only [List.map_cons, List.filter_cons, contains_filter_ne]
    exact ih

/-! ## Claim theorems -/

/-- C7: for every room, one handler invocation leaves the cached operation
log unchanged, appends exactly one entry at its end, or fully clears it —
no handler removes, reorders or mutates individual existing entries, so
the log stays ordered by arrival time and append-only except for full
clears (handlers that do not touch the log are the degenerate append of
zero entries permitted by append-only). -/
theorem C7_cache_append_only (s : ServerState) (sock : Socket) (ev : String)
    (payload : Obj) (now : Nat) (r : Val) :
    cacheLog (handleMessage s sock ev payload now).1.cache r = cacheLog s.cache r ∨
    (∃ e, cacheLog (handleMessage s sock ev payload now).1.cache r =
      cacheLog s.cache r ++ [e]) ∨
    cacheLog (handleMessage s sock ev payload now).1.cache r = [] := by
  rcases handleMessage_cacheEvolves s sock ev payload now with
    h | ⟨rid, e, h⟩ | ⟨rid, h⟩ | ⟨rid, h⟩ <;> rw [h]
  · exact Or.inl rfl
  · by_cases hr : r = rid
    · exact Or.inr (Or.inl ⟨e, by rw [cacheLog_cachePush, if_pos hr]⟩)
    · exact Or.inl (by rw [cacheLog_cachePush, if_neg hr])
  · by_cases hr : r = rid
    · exact Or.inr (Or.inr (by rw [cacheLog_cacheClear, if_pos hr]))
    · exact Or.inl (by rw [cacheLog_cacheClear, if_neg hr])
  · exact Or.inl (cacheLog_ensureRoom s.cache rid r)

/-- C6: a board-cleared event discards the cached log of the named room;
clearing is idempotent — both after one and after two board-cleared events
the log is empty and the second clear does not change the cache at all —
a subsequent getCanvasState materialisation still yields an empty log, and
board-saved discards the log the same way. -/
theorem C6_board_clear_idempotent (s : ServerState) (sock : Socket) (payload : Obj)
    (rid : Val) (now : Nat)
    (hpay : payload.get "roomId" = some rid) (ht : rid.truthy = true) :
    cacheLog (handleMessage s sock "board-cleared" payload now).1.cache rid = [] ∧
    cacheLog (handleMessage (handleMessage s sock "board-cleared" payload now).1
        sock "board-cleared" payload now).1.cache rid = [] ∧
    (handleMessage (handleMessage s sock "board-cleared" payload now).1
        sock "board-cleared" payload now).1.cache =
      (handleMessage s sock "board-cleared" payload now).1.cache ∧
    cacheLog (ensureRoom (handleMessage (handleMessage s sock "board-cleared" payload now).1
        sock "board-cleared" payload now).1.cache rid) rid = [] ∧
    cacheLog (handleMessage s sock "board-saved" payload now).1.cache rid = [] := by
  have hgen : ∀ t : ServerState,
      (handleMessage t sock "board-cleared" payload now).1.cache = cacheClear t.cache rid := by
    intro t
    rw [handle_board_cleared]
    unfold boardClearedHandler
    rw [hpay]
    simp [ht]
  have hsav : (handleMessage s sock "board-saved" payload now).1.cache =
      cacheClear s.cache rid := by
    rw [handle_board_saved]
    unfold boardSavedHandler
    rw [hpay]
    simp [ht]
  refine ⟨?_, ?_, ?_, ?_, ?_⟩
  · rw [hgen s, cacheLog_cacheClear, if_pos rfl]
  · rw [hgen _, cacheLog_cacheClear, if_pos rfl]
  · rw [hgen _, hgen s, cacheClear_idem]
  · rw [cacheLog_ensureRoom, hgen _, cacheLog_cacheClear, if_pos rfl]
  · rw [hsav, cacheLog_cacheClear, if_pos rfl]

/-- Witness for C6 at a concrete room with one cached entry. -/
theorem C6_board_clear_idempotent_witness :
    (Obj.get [("roomId", Val.vstr "room1")] "roomId" = some (Val.vstr "room1")) ∧
    (Val.vstr "room1").truthy = true ∧
    (cacheLog (handleMessage ⟨[(Val.vstr "room1", [[("x", Val.vnum 1)]])], [], [], [], []⟩
        ⟨"sA", "uA", "a@x.com", "A"⟩ "board-cleared" [("roomId", Val.vstr "room1")] 0).1.cache
        (Val.vstr "room1") = [] ∧
     cacheLog (handleMessage (handleMessage ⟨[(Val.vstr "room1", [[("x", Val.vnum 1)]])], [], [], [], []⟩
          ⟨"sA", "uA", "a@x.com", "A"⟩ "board-cleared" [("roomId", Val.vstr "room1")] 0).1
        ⟨"sA", "uA", "a@x.com", "A"⟩ "board-cleared" [("roomId", Val.vstr "room1")] 0).1.cache
        (Val.vstr "room1") = [] ∧
     (handleMessage (handleMessage ⟨[(Val.vstr "room1", [[("x", Val.vnum 1)]])], [], [], [], []⟩
          ⟨"sA", "uA", "a@x.com", "A"⟩ "board-cleared" [("roomId", Val.vstr "room1")] 0).1
        ⟨"sA", "uA", "a@x.com", "A"⟩ "board-cleared" [("roomId", Val.vstr "room1")] 0).1.cache =
       (handleMessage ⟨[(Val.vstr "room1", [[("x", Val.vnum 1)]])], [], [], [], []⟩
          ⟨"sA", "uA", "a@x.com", "A"⟩ "board-cleared" [("roomId", Val.vstr "room1")] 0).1.cache ∧
     cacheLog (ensureRoom (handleMessage (handleMessage ⟨[(Val.vstr "room1", [[("x", Val.vnum 1)]])], [], [], [], []⟩
          ⟨"sA", "uA", "a@x.com", "A"⟩ "board-cleared" [("roomId", Val.vstr "room1")] 0).1
        ⟨"sA", "uA", "a@x.com", "A"⟩ "board-cleared" [("roomId", Val.vstr "room1")] 0).1.cache
        (Val.vstr "room1")) (Val.vstr "room1") = [] ∧
     cacheLog (handleMessage ⟨[(Val.vstr "room1", [[("x", Val.vnum 1)]])], [], [], [], []⟩
        ⟨"sA", "uA", "a@x.com", "A"⟩ "board-saved" [("roomId", Val.vstr "room1")] 0).1.cache
        (Val.vstr "room1") = []) :=
  ⟨rfl, rfl,
   C6_board_clear_idempotent ⟨[(Val.vstr "room1", [[("x", Val.vnum 1)]])], [], [], [], []⟩
     ⟨"sA", "uA", "a@x.com", "A"⟩ [("roomId", Val.vstr "room1")] (Val.vstr "room1") 0 rfl rfl⟩

/-- C8: a join whose roomId is missing, empty or not a string answers a
local error event to the requesting connection only, changes no server
state (so the socket is added to no broadcast group and stays connected),
and does not disconnect the connection. -/
theorem C8_invalid_join_local_error (s : ServerState) (sock : Socket) (payload : Obj)
    (now : Nat)
    (hbad : ∀ r : String, payload.get "roomId" = some (Val.vstr r) → r = "") :
    handleMessage s sock "join" payload now =
      (s, [⟨Target.self sock.sid, "error",
            Load.obj [("message", Val.vstr "Invalid room id")]⟩]) ∧
    recipients s (Target.self sock.sid) = [sock.sid] := by
  constructor
  · rw [handle_join]
    unfold joinHandler
    cases hpay : payload.get "roomId" with
    | none => rfl
    | some v =>
      cases v with
      | vstr r =>
        have hre : r = "" := hbad r hpay
        subst hre
        simp
      | vnum n => rfl
      | vbool b => rfl
  · rfl

/-- Witness for C8 at a join with no roomId property at all. -/
theorem C8_invalid_join_local_error_witness :
    (∀ r : String, Obj.get [] "roomId" = some (Val.vstr r) → r = "") ∧
    (handleMessage ⟨[], [], ["sA"], [], []⟩ ⟨"sA", "uA", "a@x.com", "A"⟩ "join" [] 0 =
      (⟨[], [], ["sA"], [], []⟩, [⟨Target.self "sA", "error",
        Load.obj [("message", Val.vstr "Invalid room id")]⟩]) ∧
     recipients ⟨[], [], ["sA"], [], []⟩ (Target.self "sA") = ["sA"]) :=
  ⟨fun r h => by simp [Obj.get] at h,
   C8_invalid_join_local_error ⟨[], [], ["sA"], [], []⟩ ⟨"sA", "uA", "a@x.com", "A"⟩ [] 0
     (fun r h => by simp [Obj.get] at h)⟩

/-- C9: each of the seven caching operation handlers appends the received
payload spread over a type tag equal to the event name, so the cached
entry carries the tag as its discriminant exactly when the payload brings
no type property of its own, and a payload property named type overrides
the tag. -/
theorem C9_entry_spread_type_tag (ev : String) (s : ServerState) (sock : Socket)
    (payload : Obj) (now : Nat) (rid : Val)
    (hev : ev ∈ opEvents) (hpay : Obj.get payload "roomId" = some rid)
    (ht : rid.truthy = true) (hn : (payload.map Prod.fst).Nodup) :
    (∃ s₂ : ServerState, handleMessage s sock ev payload now =
        (s₂, [⟨Target.exceptSender rid sock.sid, ev, Load.obj payload⟩]) ∧
      s₂.cache = cachePush s.cache rid (mkEntry ev payload)) ∧
    cacheLog (cachePush s.cache rid (mkEntry ev payload)) rid =
      cacheLog s.cache rid ++ [mkEntry ev payload] ∧
    (Obj.get payload "type" = none →
      Obj.get (mkEntry ev payload) "type" = some (Val.vstr ev)) ∧
    (∀ w, Obj.get payload "type" = some w →
      Obj.get (mkEntry ev payload) "type" = some w) := by
  refine ⟨?_, ?_, ?_, ?_⟩
  · obtain ⟨s₂, h1, h2, _, _⟩ := opHandler_normal ev s sock payload now rid hev hpay ht
    exact ⟨s₂, h1, h2⟩
  · rw [cacheLog_cachePush, if_pos rfl]
  · intro h0
    rw [mkEntry_get_type ev payload hn, h0]
  · intro w hw
    rw [mkEntry_get_type ev payload hn, hw]

/-- Witness for C9 at a fill payload carrying its own type property. -/
theorem C9_entry_spread_type_tag_witness :
    ("fill" ∈ opEvents) ∧
    (Obj.get [("roomId", Val.vstr "room1"), ("type", Val.vstr "custom")] "roomId" =
      some (Val.vstr "room1")) ∧
    (Val.vstr "room1").truthy = true ∧
    ((([("roomId", Val.vstr "room1"), ("type", Val.vstr "custom")] : Obj).map
        Prod.fst).Nodup) ∧
    ((∃ s₂ : ServerState,
        handleMessage ⟨[], [], [], [], []⟩ ⟨"sA", "uA", "a@x.com", "A"⟩ "fill"
            [("roomId", Val.vstr "room1"), ("type", Val.vstr "custom")] 0 =
          (s₂, [⟨Target.exceptSender (Val.vstr "room1") "sA", "fill",
                 Load.obj [("roomId", Val.vstr "room1"), ("type", Val.vstr "custom")]⟩]) ∧
        s₂.cache = cachePush ([] : Cache) (Val.vstr "room1")
          (mkEntry "fill" [("roomId", Val.vstr "room1"), ("type", Val.vstr "custom")])) ∧
     cacheLog (cachePush ([] : Cache) (Val.vstr "room1")
         (mkEntry "fill" [("roomId", Val.vstr "room1"), ("type", Val.vstr "custom")]))
         (Val.vstr "room1") =
       cacheLog ([] : Cache) (Val.vstr "room1") ++
         [mkEntry "fill" [("roomId", Val.vstr "room1"), ("type", Val.vstr "custom")]] ∧
     (Obj.get [("roomId", Val.vstr "room1"), ("type", Val.vstr "custom")] "type" = none →
       Obj.get (mkEntry "fill" [("roomId", Val.vstr "room1"), ("type", Val.vstr "custom")])
         "type" = some (Val.vstr "fill")) ∧
     (∀ w, Obj.get [("roomId", Val.vstr "room1"), ("type", Val.vstr "custom")] "type" = some w →
       Obj.get (mkEntry "fill" [("roomId", Val.vstr "room1"), ("type", Val.vstr "custom")])
         "type" = some w)) :=
  ⟨by decide, rfl, rfl, by decide,
   C9_entry_spread_type_tag "fill" ⟨[], [], [], [], []⟩ ⟨"sA", "uA", "a@x.com", "A"⟩
     [("roomId", Val.vstr "room1"), ("type", Val.vstr "custom")] 0 (Val.vstr "room1")
     (by decide) rfl rfl (by decide)⟩

/-- C10: for an authenticated connection and a truthy roomId string, a
draw appends the tagged entry to the named room cache — creating the cache
entry on demand for a previously unseen roomId — and broadcasts the raw
payload to the current members of that room except the sender, with no
requirement that the sender ever joined the room and no requirement that
the room have any participant. -/
theorem C10_draw_without_membership (s : ServerState) (sock : Socket) (payload : Obj)
    (now : Nat) (r : String)
    (hpay : Obj.get payload "roomId" = some (Val.vstr r)) (hr : ¬ r = "") :
    (handleMessage s sock "draw" payload now).2 =
      [⟨Target.exceptSender (Val.vstr r) sock.sid, "draw", Load.obj payload⟩] ∧
    cacheLog (handleMessage s sock "draw" payload now).1.cache (Val.vstr r) =
      cacheLog s.cache (Val.vstr r) ++ [mkEntry "draw" payload] ∧
    (cacheHas s.cache (Val.vstr r) = false →
      cacheLog (handleMessage s sock "draw" payload now).1.cache (Val.vstr r) =
        [mkEntry "draw" payload]) ∧
    recipients (handleMessage s sock "draw" payload now).1
        (Target.exceptSender (Val.vstr r) sock.sid) =
      (roomMembers s.rooms (Val.vstr r)).filter (fun m => m ≠ sock.sid) := by
  have ht : (Val.vstr r).truthy = true := by simp [Val.truthy, hr]
  obtain ⟨s₂, h1, h2, h3, _⟩ :=
    opHandler_normal "draw" s sock payload now (Val.vstr r) (by simp [opEvents]) hpay ht
  rw [h1]
  refine ⟨rfl, ?_, ?_, ?_⟩
  · show cacheLog s₂.cache _ = _
    rw [h2, cacheLog_cachePush, if_pos rfl]
  · intro hnone
    show cacheLog s₂.cache _ = _
    rw [h2, cacheLog_cachePush, if_pos rfl, cacheLog_of_not_has hnone]
    rw [List.nil_append]
  · show recipients s₂ _ = _
    unfold recipients
    rw [h3]

/-- Witness for C10: a draw into a room the sender never joined and that
has no cache entry and no participants. -/
theorem C10_draw_without_membership_witness :
    (Obj.get [("roomId", Val.vstr "fresh")] "roomId" = some (Val.vstr "fresh")) ∧
    (¬ ("fresh" : String) = "") ∧
    ((handleMessage ⟨[], [], ["sA"], [], []⟩ ⟨"sA", "uA", "a@x.com", "A"⟩ "draw"
        [("roomId", Val.vstr "fresh")] 0).2 =
      [⟨Target.exceptSender (Val.vstr "fresh") "sA", "draw",
        Load.obj [("roomId", Val.vstr "fresh")]⟩] ∧
     cacheLog (handleMessage ⟨[], [], ["sA"], [], []⟩ ⟨"sA", "uA", "a@x.com", "A"⟩ "draw"
         [("roomId", Val.vstr "fresh")] 0).1.cache (Val.vstr "fresh") =
       cacheLog ([] : Cache) (Val.vstr "fresh") ++ [mkEntry "draw" [("roomId", Val.vstr "fresh")]] ∧
     (cacheHas ([] : Cache) (Val.vstr "fresh") = false →
       cacheLog (handleMessage ⟨[], [], ["sA"], [], []⟩ ⟨"sA", "uA", "a@x.com", "A"⟩ "draw"
           [("roomId", Val.vstr "fresh")] 0).1.cache (Val.vstr "fresh") =
         [mkEntry "draw" [("roomId", Val.vstr "fresh")]]) ∧
     recipients (handleMessage ⟨[], [], ["sA"], [], []⟩ ⟨"sA", "uA", "a@x.com", "A"⟩ "draw"
         [("roomId", Val.vstr "fresh")] 0).1
         (Target.exceptSender (Val.vstr "fresh") "sA") =
       (roomMembers ([] : Rooms) (Val.vstr "fresh")).filter (fun m => m ≠ "sA")) :=
  ⟨rfl, by decide,
   C10_draw_without_membership ⟨[], [], ["sA"], [], []⟩ ⟨"sA", "uA", "a@x.com", "A"⟩
     [("roomId", Val.vstr "fresh")] 0 "fresh" rfl (by decide)⟩

/-- C4: a connection with no token is refused with the token-required
error, a connection whose token the identity verifier rejects is refused
with the invalid-token error — in both cases no socket object is created,
so no handler can ever run for it and it can join no room and emit no
operation — and a valid token yields a socket carrying the resolved
identity: the verifier user id, the email, and the display name taken
from the user metadata display name or the part of the email before the
at sign. -/
theorem C4_auth_gate (verifier : String → Option SupabaseUser) (token : Option String)
    (sid : String) :
    (token = none →
      ioUseAuth verifier token = AuthOutcome.refused "Authentication token required" ∧
      acceptConnection verifier token sid = none) ∧
    (∀ t, token = some t → verifier t = none →
      ioUseAuth verifier token = AuthOutcome.refused "Invalid authentication token" ∧
      acceptConnection verifier token sid = none) ∧
    (∀ t u, token = some t → verifier t = some u →
      acceptConnection verifier token sid =
        some ⟨sid, u.id, u.email,
          strOrFalsy u.displayName ((u.email.splitOn "@").headD "")⟩) := by
  refine ⟨?_, ?_, ?_⟩
  · rintro rfl
    exact ⟨rfl, rfl⟩
  · rintro t rfl hv
    constructor
    · simp [ioUseAuth, hv]
    · simp [acceptConnection, ioUseAuth, hv]
  · rintro t u rfl hv
    simp [acceptConnection, ioUseAuth, hv]

/-- Witness for C4 with a one-token verifier: the valid token is accepted
with the email-derived display name, the missing and invalid tokens are
refused. -/
theorem C4_auth_gate_witness :
    ((none : Option String) = none →
      ioUseAuth (fun t => if t == "tok" then some ⟨"u1", "u@example.com", none⟩ else none)
          none = AuthOutcome.refused "Authentication token required" ∧
      acceptConnection (fun t => if t == "tok" then some ⟨"u1", "u@example.com", none⟩ else none)
          none "s1" = none) ∧
    (some "tok" = some "tok") ∧
    ((fun t => if t == "tok" then some ⟨"u1", "u@example.com", none⟩ else none) "tok" =
      some (⟨"u1", "u@example.com", none⟩ : SupabaseUser)) ∧
    acceptConnection (fun t => if t == "tok" then some ⟨"u1", "u@example.com", none⟩ else none)
        (some "tok") "s1" =
      some ⟨"s1", "u1", "u@example.com",
        strOrFalsy none (("u@example.com".splitOn "@").headD "")⟩ :=
  ⟨(C4_auth_gate (fun t => if t == "tok" then some ⟨"u1", "u@example.com", none⟩ else none)
      none "s1").1,
   rfl, rfl,
   (C4_auth_gate (fun t => if t == "tok" then some ⟨"u1", "u@example.com", none⟩ else none)
      (some "tok") "s1").2.2 "tok" ⟨"u1", "u@example.com", none⟩ rfl rfl⟩

/-- C5: over any sequence of drawing operation events addressed to one
room, every member of the room receives exactly the operations whose
origin is not itself, in the order the server processed them — broadcast
order equals arrival order and no origin ever receives its own operation
echoed back. -/
theorem C5_broadcast_order (s : ServerState) (R : Val) (evts : List InEvent) (p : String)
    (hR : R.truthy = true)
    (hnd : (roomMembers s.rooms R).Nodup)
    (hp : p ∈ roomMembers s.rooms R)
    (hops : ∀ e ∈ evts, e.event ∈ opEvents ∧ Obj.get e.payload "roomId" = some R) :
    receivedBy p (runServer s evts).2 =
      (evts.filter (fun e => e.sock.sid ≠ p)).map (fun e => (e.event, Load.obj e.payload)) := by
  revert hnd hp hops
  induction evts generalizing s with
  | nil =>
    intro _ _ _
    simp [runServer, receivedBy]
  | cons e rest ih =>
    intro hnd hp hops
    obtain ⟨hev, hpay⟩ := hops e (List.mem_cons_self e rest)
    obtain ⟨s₂, hstep, _hc, hrooms, _hco⟩ :=
      opHandler_normal e.event s e.sock e.payload e.now R hev hpay hR
    rw [runServer_cons, hstep]
    show receivedBy p (deliverAll s₂ [_] ++ (runServer s₂ rest).2) = _
    rw [receivedBy_append, deliverAll_exceptSender, hrooms,
        recv_fan (roomMembers s.rooms R) e.sock.sid p e.event (Load.obj e.payload) hnd hp]
    rw [ih s₂ (by rw [hrooms]; exact hnd) (by rw [hrooms]; exact hp)
        (fun x hx => hops x (List.mem_cons_of_mem e hx))]
    by_cases hsp : p = e.sock.sid
    · simp [List.filter_cons, hsp]
    · simp [List.filter_cons, hsp, Ne.symm hsp]

/-- Witness for C5: one draw from the first of two members of a room; the
other member receives it once, the origin receives nothing. -/
theorem C5_broadcast_order_witness :
    (Val.vstr "room1").truthy = true ∧
    (roomMembers [(Val.vstr "room1", ["s1", "s2"])] (Val.vstr "room1")).Nodup ∧
    ("s2" ∈ roomMembers [(Val.vstr "room1", ["s1", "s2"])] (Val.vstr "room1")) ∧
    (∀ e ∈ ([⟨⟨"s1", "u1", "a@x.com", "A"⟩, "draw", [("roomId", Val.vstr "room1")], 0⟩] :
        List InEvent),
      e.event ∈ opEvents ∧ Obj.get e.payload "roomId" = some (Val.vstr "room1")) ∧
    receivedBy "s2" (runServer ⟨[], [(Val.vstr "room1", ["s1", "s2"])], ["s1", "s2"], [], []⟩
        [⟨⟨"s1", "u1", "a@x.com", "A"⟩, "draw", [("roomId", Val.vstr "room1")], 0⟩]).2 =
      (([⟨⟨"s1", "u1", "a@x.com", "A"⟩, "draw", [("roomId", Val.vstr "room1")], 0⟩] :
          List InEvent).filter (fun e => e.sock.sid ≠ "s2")).map
        (fun e => (e.event, Load.obj e.payload)) :=
  ⟨rfl, by decide, by decide, by decide,
   C5_broadcast_order ⟨[], [(Val.vstr "room1", ["s1", "s2"])], ["s1", "s2"], [], []⟩
     (Val.vstr "room1")
     [⟨⟨"s1", "u1", "a@x.com", "A"⟩, "draw", [("roomId", Val.vstr "room1")], 0⟩]
     "s2" rfl (by decide) (by decide) (by decide)⟩

/-- C2 counterexample: in a two-member database-backed room with a durable
record for the leaver, an explicit leave removes the record and emits only
user-left — the filter for room-info over the emitted messages is empty,
so no updated count is broadcast, refuting the claim for the explicit
leave path. -/
theorem C2_leave_no_room_info_counterexample :
    (handleMessage ⟨[], [(Val.vstr "aaaaaaaaaaaaaaaaaaaaaaaa", ["sA", "sB"])], ["sA", "sB"],
        [⟨"aaaaaaaaaaaaaaaaaaaaaaaa", "uA", "sA", 0, 0⟩], []⟩
      ⟨"sA", "uA", "a@x.com", "A"⟩ "leave"
      [("roomId", Val.vstr "aaaaaaaaaaaaaaaaaaaaaaaa")] 5).1.activeUsers = [] ∧
    (handleMessage ⟨[], [(Val.vstr "aaaaaaaaaaaaaaaaaaaaaaaa", ["sA", "sB"])], ["sA", "sB"],
        [⟨"aaaaaaaaaaaaaaaaaaaaaaaa", "uA", "sA", 0, 0⟩], []⟩
      ⟨"sA", "uA", "a@x.com", "A"⟩ "leave"
      [("roomId", Val.vstr "aaaaaaaaaaaaaaaaaaaaaaaa")] 5).2.filter
        (fun m => m.event == "room-info") = [] := by decide

/-- C2 amended: on explicit leave the server removes the durable record
for that connection on the named board and emits user-left to the
remaining members, but broadcasts no room-info count; on socket close it
removes every durable record of the socket and the transport removes the
socket from every room, but — socket.rooms being already empty when the
disconnect event fires — the per-room notification loop runs zero times,
so neither user-left nor room-info is broadcast on that path. -/
theorem C2_leave_disconnect_amended (s : ServerState) (sock : Socket) (payload : Obj)
    (r : String) (now : Nat)
    (hpay : Obj.get payload "roomId" = some (Val.vstr r))
    (hr : isValidObjectId r = true) :
    ((handleMessage s sock "leave" payload now).1.activeUsers =
        s.activeUsers.filter (fun a => !(a.boardId == r && a.socketId == sock.sid)) ∧
     (handleMessage s sock "leave" payload now).2 =
        [⟨Target.exceptSender (Val.vstr r) sock.sid, "user-left",
          Load.obj [("userId", Val.vstr sock.userId), ("userName", Val.vstr sock.userName)]⟩] ∧
     (handleMessage s sock "leave" payload now).2.filter
        (fun m => m.event == "room-info") = []) ∧
    ((handleMessage s sock "disconnect" payload now).1.activeUsers =
        s.activeUsers.filter (fun a => !(a.socketId == sock.sid)) ∧
     (handleMessage s sock "disconnect" payload now).1.rooms =
        roomsDropSocket s.rooms sock.sid ∧
     (handleMessage s sock "disconnect" payload now).2 = []) := by
  have ht : (Val.vstr r).truthy = true := by
    simp [Val.truthy, validObjectId_ne_empty hr]
  have hstep : handleMessage s sock "leave" payload now =
      ({ s with rooms := roomLeave s.rooms (Val.vstr r) sock.sid,
                activeUsers := pullActive s.activeUsers r sock.sid },
       [⟨Target.exceptSender (Val.vstr r) sock.sid, "user-left",
          Load.obj [("userId", Val.vstr sock.userId), ("userName", Val.vstr sock.userName)]⟩]) := by
    rw [handle_leave]
    unfold leaveHandler
    rw [hpay]
    simp [ht, hr]
  constructor
  · rw [hstep]
    exact ⟨rfl, rfl, rfl⟩
  · rw [handle_disconnect]
    unfold disconnectHandler
    refine ⟨rfl, rfl, ?_⟩
    show ((roomsOf (roomsDropSocket s.rooms sock.sid) sock.sid).filter
        (fun x => x ≠ Val.vstr sock.sid)).flatMap _ = []
    rw [roomsOf_dropSocket]
    rfl

/-- Witness for C2 amended at a concrete two-member room. -/
theorem C2_leave_disconnect_amended_witness :
    (Obj.get [("roomId", Val.vstr "aaaaaaaaaaaaaaaaaaaaaaaa")] "roomId" =
      some (Val.vstr "aaaaaaaaaaaaaaaaaaaaaaaa")) ∧
    isValidObjectId "aaaaaaaaaaaaaaaaaaaaaaaa" = true ∧
    (((handleMessage ⟨[], [(Val.vstr "aaaaaaaaaaaaaaaaaaaaaaaa", ["sA", "sB"])], ["sA", "sB"],
          [⟨"aaaaaaaaaaaaaaaaaaaaaaaa", "uA", "sA", 0, 0⟩], []⟩
        ⟨"sA", "uA", "a@x.com", "A"⟩ "leave"
        [("roomId", Val.vstr "aaaaaaaaaaaaaaaaaaaaaaaa")] 5).1.activeUsers =
        ([⟨"aaaaaaaaaaaaaaaaaaaaaaaa", "uA", "sA", 0, 0⟩] : List ActiveUser).filter
          (fun a => !(a.boardId == "aaaaaaaaaaaaaaaaaaaaaaaa" && a.socketId == "sA")) ∧
      (handleMessage ⟨[], [(Val.vstr "aaaaaaaaaaaaaaaaaaaaaaaa", ["sA", "sB"])], ["sA", "sB"],
          [⟨"aaaaaaaaaaaaaaaaaaaaaaaa", "uA", "sA", 0, 0⟩], []⟩
        ⟨"sA", "uA", "a@x.com", "A"⟩ "leave"
        [("roomId", Val.vstr "aaaaaaaaaaaaaaaaaaaaaaaa")] 5).2 =
        [⟨Target.exceptSender (Val.vstr "aaaaaaaaaaaaaaaaaaaaaaaa") "sA", "user-left",
          Load.obj [("userId", Val.vstr "uA"), ("userName", Val.vstr "A")]⟩] ∧
      (handleMessage ⟨[], [(Val.vstr "aaaaaaaaaaaaaaaaaaaaaaaa", ["sA", "sB"])], ["sA", "sB"],
          [⟨"aaaaaaaaaaaaaaaaaaaaaaaa", "uA", "sA", 0, 0⟩], []⟩
        ⟨"sA", "uA", "a@x.com", "A"⟩ "leave"
        [("roomId", Val.vstr "aaaaaaaaaaaaaaaaaaaaaaaa")] 5).2.filter
          (fun m => m.event == "room-info") = []) ∧
     ((handleMessage ⟨[], [(Val.vstr "aaaaaaaaaaaaaaaaaaaaaaaa", ["sA", "sB"])], ["sA", "sB"],
          [⟨"aaaaaaaaaaaaaaaaaaaaaaaa", "uA", "sA", 0, 0⟩], []⟩
        ⟨"sA", "uA", "a@x.com", "A"⟩ "disconnect"
        [("roomId", Val.vstr "aaaaaaaaaaaaaaaaaaaaaaaa")] 5).1.activeUsers =
        ([⟨"aaaaaaaaaaaaaaaaaaaaaaaa", "uA", "sA", 0, 0⟩] : List ActiveUser).filter
          (fun a => !(a.socketId == "sA")) ∧
      (handleMessage ⟨[], [(Val.vstr "aaaaaaaaaaaaaaaaaaaaaaaa", ["sA", "sB"])], ["sA", "sB"],
          [⟨"aaaaaaaaaaaaaaaaaaaaaaaa", "uA", "sA", 0, 0⟩], []⟩
        ⟨"sA", "uA", "a@x.com", "A"⟩ "disconnect"
        [("roomId", Val.vstr "aaaaaaaaaaaaaaaaaaaaaaaa")] 5).1.rooms =
        roomsDropSocket [(Val.vstr "aaaaaaaaaaaaaaaaaaaaaaaa", ["sA", "sB"])] "sA" ∧
      (handleMessage ⟨[], [(Val.vstr "aaaaaaaaaaaaaaaaaaaaaaaa", ["sA", "sB"])], ["sA", "sB"],
          [⟨"aaaaaaaaaaaaaaaaaaaaaaaa", "uA", "sA", 0, 0⟩], []⟩
        ⟨"sA", "uA", "a@x.com", "A"⟩ "disconnect"
        [("roomId", Val.vstr "aaaaaaaaaaaaaaaaaaaaaaaa")] 5).2 = [])) :=
  ⟨rfl, by decide,
   C2_leave_disconnect_amended
     ⟨[], [(Val.vstr "aaaaaaaaaaaaaaaaaaaaaaaa", ["sA", "sB"])], ["sA", "sB"],
       [⟨"aaaaaaaaaaaaaaaaaaaaaaaa", "uA", "sA", 0, 0⟩], []⟩
     ⟨"sA", "uA", "a@x.com", "A"⟩ [("roomId", Val.vstr "aaaaaaaaaaaaaaaaaaaaaaaa")]
     "aaaaaaaaaaaaaaaaaaaaaaaa" 5 rfl (by decide)⟩

theorem cacheOpHandler_activeUsers (ev : String) (s : ServerState) (sock : Socket) (p : Obj) :
    (cacheOpHandler ev s sock p).1.activeUsers = s.activeUsers := by
  unfold cacheOpHandler
  repeat' split
  all_goals rfl

/-- C3 counterexample: with one durable record at last-activity 0 and the
clock at 5, an erase leaves the record at 0 while a draw on the same state
moves it to 5 — erase (and thus not every drawing operation) does not
refresh the last-activity timestamp, refuting the claim. -/
theorem C3_erase_no_refresh_counterexample :
    (handleMessage ⟨[], [(Val.vstr "aaaaaaaaaaaaaaaaaaaaaaaa", ["sA"])], ["sA"],
        [⟨"aaaaaaaaaaaaaaaaaaaaaaaa", "uA", "sA", 0, 0⟩], []⟩
      ⟨"sA", "uA", "a@x.com", "A"⟩ "erase"
      [("roomId", Val.vstr "aaaaaaaaaaaaaaaaaaaaaaaa")] 5).1.activeUsers =
      [⟨"aaaaaaaaaaaaaaaaaaaaaaaa", "uA", "sA", 0, 0⟩] ∧
    (handleMessage ⟨[], [(Val.vstr "aaaaaaaaaaaaaaaaaaaaaaaa", ["sA"])], ["sA"],
        [⟨"aaaaaaaaaaaaaaaaaaaaaaaa", "uA", "sA", 0, 0⟩], []⟩
      ⟨"sA", "uA", "a@x.com", "A"⟩ "draw"
      [("roomId", Val.vstr "aaaaaaaaaaaaaaaaaaaaaaaa")] 5).1.activeUsers =
      [⟨"aaaaaaaaaaaaaaaaaaaaaaaa", "uA", "sA", 0, 5⟩] := by decide

/-- C3 amended: only the draw handler refreshes the emitting connection
last-activity timestamp in the durable membership store (the write is
fire-and-forget and surfaces nothing: the handler emits only the draw
broadcast); the erase, shape, text, fill, selection-cut and
paste-selection handlers leave the durable store untouched. -/
theorem C3_only_draw_refreshes_activity (s : ServerState) (sock : Socket) (payload : Obj)
    (now : Nat) (r : String)
    (hpay : Obj.get payload "roomId" = some (Val.vstr r))
    (hr : isValidObjectId r = true) :
    ((handleMessage s sock "draw" payload now).1.activeUsers =
        updateFirst (fun a => a.boardId == r && a.socketId == sock.sid)
          (fun a => { a with lastActivity := now }) s.activeUsers ∧
     (handleMessage s sock "draw" payload now).2 =
        [⟨Target.exceptSender (Val.vstr r) sock.sid, "draw", Load.obj payload⟩]) ∧
    (∀ ev ∈ (["erase", "shape", "text", "fill", "selection-cut", "paste-selection"] :
        List String),
      (handleMessage s sock ev payload now).1.activeUsers = s.activeUsers) := by
  have ht : (Val.vstr r).truthy = true := by
    simp [Val.truthy, validObjectId_ne_empty hr]
  constructor
  · rw [handle_draw]
    unfold drawHandler
    rw [hpay]
    simp only [ht, if_true]
    constructor
    · show refreshActivity s.activeUsers (Val.vstr r) sock.sid now = _
      unfold refreshActivity
      simp [hr]
    · trivial
  · intro ev hev
    simp only [List.mem_cons, List.not_mem_nil, or_false] at hev
    rcases hev with h | h | h | h | h | h <;> subst h
    · rw [handle_erase, cacheOpHandler_activeUsers]
    · rw [handle_shape, cacheOpHandler_activeUsers]
    · rw [handle_text, cacheOpHandler_activeUsers]
    · rw [handle_fill, cacheOpHandler_activeUsers]
    · rw [handle_selection_cut, cacheOpHandler_activeUsers]
    · rw [handle_paste_selection, cacheOpHandler_activeUsers]

/-- Witness for C3 amended on a concrete one-record store. -/
theorem C3_only_draw_refreshes_activity_witness :
    (Obj.get [("roomId", Val.vstr "aaaaaaaaaaaaaaaaaaaaaaaa")] "roomId" =
      some (Val.vstr "aaaaaaaaaaaaaaaaaaaaaaaa")) ∧
    isValidObjectId "aaaaaaaaaaaaaaaaaaaaaaaa" = true ∧
    (((handleMessage ⟨[], [(Val.vstr "aaaaaaaaaaaaaaaaaaaaaaaa", ["sA"])], ["sA"],
          [⟨"aaaaaaaaaaaaaaaaaaaaaaaa", "uA", "sA", 0, 0⟩], []⟩
        ⟨"sA", "uA", "a@x.com", "A"⟩ "draw"
        [("roomId", Val.vstr "aaaaaaaaaaaaaaaaaaaaaaaa")] 5).1.activeUsers =
        updateFirst (fun a => a.boardId == "aaaaaaaaaaaaaaaaaaaaaaaa" && a.socketId == "sA")
          (fun a => { a with lastActivity := 5 })
          [⟨"aaaaaaaaaaaaaaaaaaaaaaaa", "uA", "sA", 0, 0⟩] ∧
      (handleMessage ⟨[], [(Val.vstr "aaaaaaaaaaaaaaaaaaaaaaaa", ["sA"])], ["sA"],
          [⟨"aaaaaaaaaaaaaaaaaaaaaaaa", "uA", "sA", 0, 0⟩], []⟩
        ⟨"sA", "uA", "a@x.com", "A"⟩ "draw"
        [("roomId", Val.vstr "aaaaaaaaaaaaaaaaaaaaaaaa")] 5).2 =
        [⟨Target.exceptSender (Val.vstr "aaaaaaaaaaaaaaaaaaaaaaaa") "sA", "draw",
          Load.obj [("roomId", Val.vstr "aaaaaaaaaaaaaaaaaaaaaaaa")]⟩]) ∧
     (∀ ev ∈ (["erase", "shape", "text", "fill", "selection-cut", "paste-selection"] :
         List String),
       (handleMessage ⟨[], [(Val.vstr "aaaaaaaaaaaaaaaaaaaaaaaa", ["sA"])], ["sA"],
           [⟨"aaaaaaaaaaaaaaaaaaaaaaaa", "uA", "sA", 0, 0⟩], []⟩
         ⟨"sA", "uA", "a@x.com", "A"⟩ ev
         [("roomId", Val.vstr "aaaaaaaaaaaaaaaaaaaaaaaa")] 5).1.activeUsers =
         [⟨"aaaaaaaaaaaaaaaaaaaaaaaa", "uA", "sA", 0, 0⟩])) :=
  ⟨rfl, by decide,
   C3_only_draw_refreshes_activity
     ⟨[], [(Val.vstr "aaaaaaaaaaaaaaaaaaaaaaaa", ["sA"])], ["sA"],
       [⟨"aaaaaaaaaaaaaaaaaaaaaaaa", "uA", "sA", 0, 0⟩], []⟩
     ⟨"sA", "uA", "a@x.com", "A"⟩ [("roomId", Val.vstr "aaaaaaaaaaaaaaaaaaaaaaaa")] 5
     "aaaaaaaaaaaaaaaaaaaaaaaa" rfl (by decide)⟩

/-- C1 (code bug): in the spec scenario client A joins room abc — an
arbitrary, non-database room id — and draws; client B joins afterwards.
The draw is cached for room abc, yet the run delivers no canvas-state to
anyone and B receives nothing at all, because the join handler returns
before the replay step whenever the room id is not a valid ObjectId, even
though the draw handlers cache operations for such rooms unconditionally. -/
theorem C1_replay_skipped_for_non_db_room :
    isValidObjectId "abc" = false ∧
    cacheLog (runServer
        (connectSocket (connectSocket ⟨[], [], [], [], []⟩ ⟨"sA", "uA", "a@x.com", "A"⟩)
          ⟨"sB", "uB", "b@x.com", "B"⟩)
        [⟨⟨"sA", "uA", "a@x.com", "A"⟩, "join", [("roomId", Val.vstr "abc")], 1⟩,
         ⟨⟨"sA", "uA", "a@x.com", "A"⟩, "draw",
           [("roomId", Val.vstr "abc"), ("color", Val.vstr "#000"),
            ("strokeWidth", Val.vnum 2)], 2⟩,
         ⟨⟨"sB", "uB", "b@x.com", "B"⟩, "join", [("roomId", Val.vstr "abc")], 3⟩]).1.cache
      (Val.vstr "abc") =
      [mkEntry "draw" [("roomId", Val.vstr "abc"), ("color", Val.vstr "#000"),
        ("strokeWidth", Val.vnum 2)]] ∧
    (runServer
        (connectSocket (connectSocket ⟨[], [], [], [], []⟩ ⟨"sA", "uA", "a@x.com", "A"⟩)
          ⟨"sB", "uB", "b@x.com", "B"⟩)
        [⟨⟨"sA", "uA", "a@x.com", "A"⟩, "join", [("roomId", Val.vstr "abc")], 1⟩,
         ⟨⟨"sA", "uA", "a@x.com", "A"⟩, "draw",
           [("roomId", Val.vstr "abc"), ("color", Val.vstr "#000"),
            ("strokeWidth", Val.vnum 2)], 2⟩,
         ⟨⟨"sB", "uB", "b@x.com", "B"⟩, "join", [("roomId", Val.vstr "abc")], 3⟩]).2.filter
      (fun d => d.event == "canvas-state") = [] ∧
    receivedBy "sB" (runServer
        (connectSocket (connectSocket ⟨[], [], [], [], []⟩ ⟨"sA", "uA", "a@x.com", "A"⟩)
          ⟨"sB", "uB", "b@x.com", "B"⟩)
        [⟨⟨"sA", "uA", "a@x.com", "A"⟩, "join", [("roomId", Val.vstr "abc")], 1⟩,
         ⟨⟨"sA", "uA", "a@x.com", "A"⟩, "draw",
           [("roomId", Val.vstr "abc"), ("color", Val.vstr "#000"),
            ("strokeWidth", Val.vnum 2)], 2⟩,
         ⟨⟨"sB", "uB", "b@x.com", "B"⟩, "join", [("roomId", Val.vstr "abc")], 3⟩]).2 = [] := by
  decide

end WB
